import Mathlib

/-!
Verification of the Varjo-Quadinator geometry core (src/dllmain.cpp).

The C++ source is shallowly embedded: `double` arithmetic is modelled by
exact rationals, `int32_t`/`uint32_t` conversions are explicit wraps
modulo 2^32, and every C construct whose execution would be undefined
behaviour (out-of-bounds array reads, modulo by zero) is modelled by
`Option`, with `none` marking the undefined access.  Host-runtime entry
points (the `original_*` function pointers and the linked Varjo library
calls) are oracles bundled in a `Host` structure; the hooks are functions
of that oracle.  The build configuration baked into the source
(USE_FOVEATED_TANGENTS = 1, USE_FOVEATED_GAZE = 0) is baked into the
model the same way.
-/

namespace Quadinator

/-- C truncation toward zero, the semantics of `static_cast<int32_t>`
applied to a real value (assuming the value is in range). -/
def truncQ (q : ℚ) : ℤ := if 0 ≤ q then ⌊q⌋ else ⌈q⌉

/-- `std::abs` on the rational model of `double`. -/
def absQ (q : ℚ) : ℚ := if 0 ≤ q then q else -q

/-- `AlignTo<2>` from dllmain.cpp line 78: `(n + 1) & ~1` on `uint32_t`,
including the wrap of `n + 1` modulo 2^32.  `(n + 1) & ~1` equals
`(n + 1) / 2 * 2`. -/
def AlignTo2 (n : ℕ) : ℕ := (n + 1) % 4294967296 / 2 * 2

/-- Conversion of an `int32_t` value to `uint32_t` (wrap modulo 2^32). -/
def toUInt32 (i : ℤ) : ℕ := (i % 4294967296).toNat

/-- Conversion of a `uint32_t` value back into an `int32_t` lvalue
(two's-complement wrap). -/
def toInt32 (n : ℕ) : ℤ :=
  if n % 4294967296 < 2147483648 then ((n % 4294967296 : ℕ) : ℤ)
  else ((n % 4294967296 : ℕ) : ℤ) - 4294967296

/-- `AlignTo<2>` as it is used in the source: applied to an `int32_t`
argument and stored back into an `int32_t` field. -/
def AlignTo2i (i : ℤ) : ℤ := toInt32 (AlignTo2 (toUInt32 i))

/-- Opaque session handle (`struct varjo_Session*`). -/
abbrev Session := ℕ

/-- `varjo_FovTangents`: signed tangent-space FOV boundaries (left and
bottom are negative magnitudes in this convention). -/
structure FovTangents where
  left : ℚ
  right : ℚ
  top : ℚ
  bottom : ℚ
  deriving DecidableEq, Repr

/-- `varjo_AlignedView` as returned by `varjo_GetAlignedView`: projection
tangent magnitudes (left and bottom are non-negated magnitudes). -/
structure AlignedView where
  projectionLeft : ℚ
  projectionRight : ℚ
  projectionTop : ℚ
  projectionBottom : ℚ
  deriving DecidableEq, Repr

/-- One eye ray of `varjo_Gaze` (origin and forward direction). -/
structure Ray where
  origin0 : ℚ
  origin1 : ℚ
  origin2 : ℚ
  forward0 : ℚ
  forward1 : ℚ
  forward2 : ℚ
  deriving DecidableEq, Repr

/-- The fields of `varjo_Gaze` that the source reads or writes. -/
structure Gaze where
  leftEye : Ray
  rightEye : Ray
  gaze : Ray
  leftStatus : ℤ
  rightStatus : ℤ
  status : ℤ
  stability : ℚ
  deriving DecidableEq, Repr

/-- `varjo_Matrix` (the 16 doubles of `projection.value`); its contents
are opaque to the patcher, which only hands it to host oracles. -/
structure Matrix where
  value : List ℚ
  deriving DecidableEq, Repr

/-- `varjo_Viewport`: swapchain id, array index and integer rectangle. -/
structure Viewport where
  swapChain : ℕ
  arrayIndex : ℤ
  x : ℤ
  y : ℤ
  width : ℤ
  height : ℤ
  deriving DecidableEq, Repr

/-- `varjo_LayerMultiProjView`: a viewport paired with a projection. -/
structure MultiProjView where
  viewport : Viewport
  projection : Matrix
  deriving DecidableEq, Repr

/-- `varjo_LayerMultiProj`: header flags, space, view count and the view
array.  `views` is the caller's array; `viewCount` is the count field,
which a malformed submission may set inconsistently with the array. -/
structure LayerMultiProj where
  flags : ℕ
  space : ℤ
  viewCount : ℤ
  views : List MultiProjView
  deriving DecidableEq, Repr

/-- A submitted layer: either a multi-projection layer or a layer of some
other type (identified only by its type tag, which is all the patcher
looks at). -/
inductive Layer where
  | multiProj (proj : LayerMultiProj)
  | other (tag : ℤ)
  deriving DecidableEq, Repr

/-- `varjo_LayerFlag_Foveated` (exact numeric value is defined by the
external Varjo header; only its identity matters to the claims). -/
def varjo_LayerFlag_Foveated : ℕ := 8

/-- `varjo_TextureSize_Type` constants (the external Varjo header defines
the numbers; only their distinctness matters to the claims). -/
def varjo_TextureSize_Type_Stereo : ℤ := 1

def varjo_TextureSize_Type_Quad : ℤ := 2

def varjo_TextureSize_Type_DynamicFoveation : ℤ := 4

/-- The host-runtime entry points the hooks call: the `original_*`
pointers resolved at attach time plus the linked `varjo_GetProjectionMatrix`. -/
structure Host where
  getTextureSize : Session → ℤ → ℤ → ℤ × ℤ
  getAlignedView : Matrix → AlignedView
  getFovTangents : Session → ℤ → FovTangents
  getFoveatedFovTangents : Session → ℤ → Gaze → FovTangents
  getRenderingGaze : Session → Bool × Gaze
  getProjectionMatrix : FovTangents → Matrix

/-- The zero-initialized `varjo_Gaze` (`*gaze = {}`). -/
def zeroRay : Ray := ⟨0, 0, 0, 0, 0, 0⟩

/-- The fixed neutral gaze written by `GetRenderingGaze` when
USE_FOVEATED_GAZE = 0 (dllmain.cpp lines 105-111): zero-init, then
forward[2] = 1 for the left eye, right eye and combined gaze,
leftStatus = rightStatus = 3 (eye fully tracked), status = 2,
stability = 1. -/
def neutralGaze : Gaze :=
  { leftEye := { zeroRay with forward2 := 1 }
    rightEye := { zeroRay with forward2 := 1 }
    gaze := { zeroRay with forward2 := 1 }
    leftStatus := 3
    rightStatus := 3
    status := 2
    stability := 1 }

/-- `GetRenderingGaze` (dllmain.cpp lines 101-113) with the compiled
configuration USE_FOVEATED_GAZE = 0: ignores the session, writes the
neutral gaze and returns true. -/
def GetRenderingGaze (_session : Session) : Bool × Gaze := (true, neutralGaze)

/-- `GetFovTangents` (dllmain.cpp lines 115-123) with
USE_FOVEATED_TANGENTS = 1: queries the rendering gaze and, on success,
asks the host for foveated tangents conditioned on that gaze (empty
hints); otherwise falls back to the host's static tangents. -/
def GetFovTangents (host : Host) (session : Session) (viewIndex : ℤ) : FovTangents :=
  let g := GetRenderingGaze session
  if g.1 then host.getFoveatedFovTangents session viewIndex g.2
  else host.getFovTangents session viewIndex

/-- `hooked_GetTextureSize` (dllmain.cpp lines 130-185) with
USE_FOVEATED_TANGENTS = 1.  For the stereo size type it queries the
host's dynamic-foveation resolution at logical index 2 + viewIndex,
resolves the full and focus FOV tangents, and rescales each axis by the
ratio of tangent extents, truncating to `int32_t` and aligning up to an
even number.  Any other size type is forwarded to the host unchanged. -/
def hooked_GetTextureSize (host : Host) (session : Session) (type : ℤ)
    (viewIndex : ℤ) : ℤ × ℤ :=
  if type = varjo_TextureSize_Type_Stereo then
    let base := host.getTextureSize session varjo_TextureSize_Type_DynamicFoveation (2 + viewIndex)
    let fullFovTangents := GetFovTangents host session viewIndex
    let focusFovTangents := GetFovTangents host session (2 + viewIndex)
    let horizontalMultiplier := absQ (fullFovTangents.right - fullFovTangents.left) /
      absQ (focusFovTangents.right - focusFovTangents.left)
    let verticalMultiplier := absQ (fullFovTangents.top - fullFovTangents.bottom) /
      absQ (focusFovTangents.top - focusFovTangents.bottom)
    (AlignTo2i (truncQ ((base.1 : ℚ) * horizontalMultiplier)),
     AlignTo2i (truncQ ((base.2 : ℚ) * verticalMultiplier)))
  else
    host.getTextureSize session type viewIndex

/-- The body of the focus-view patch (dllmain.cpp lines 272-319) for view
index `k`, given the already-copied reference view `views[k % 2]` and the
copied focus view `views[k]`.  If the focus viewport is the 1x1 sentinel,
the viewport is carved out of the reference view (the offsets are added
to the focus view's own submitted x and y) and the projection is replaced
by the matrix for the focus tangents; otherwise the view is returned
unchanged.  The boolean reports whether the sentinel branch ran (it is
what sets `varjo_LayerFlag_Foveated` on the layer). -/
def patchFocusView (host : Host) (session : Session) (k : ℤ)
    (focusView referenceView : MultiProjView) : MultiProjView × Bool :=
  if focusView.viewport.width = 1 ∧ focusView.viewport.height = 1 then
    let fullFovTangents := host.getAlignedView referenceView.projection
    let focusFovTangents := GetFovTangents host session k
    let horizontalFov := fullFovTangents.projectionRight + fullFovTangents.projectionLeft
    let leftOffset := (focusFovTangents.left + fullFovTangents.projectionLeft) / horizontalFov
    let verticalFov := fullFovTangents.projectionTop + fullFovTangents.projectionBottom
    let topOffset := (fullFovTangents.projectionTop - focusFovTangents.top) / verticalFov
    ({ viewport :=
        { swapChain := referenceView.viewport.swapChain
          arrayIndex := referenceView.viewport.arrayIndex
          x := focusView.viewport.x + truncQ (leftOffset * (referenceView.viewport.width : ℚ))
          y := focusView.viewport.y + truncQ (topOffset * (referenceView.viewport.height : ℚ))
          width := AlignTo2i (truncQ ((absQ (focusFovTangents.right - focusFovTangents.left) / horizontalFov) *
            (referenceView.viewport.width : ℚ)))
          height := AlignTo2i (truncQ ((absQ (focusFovTangents.top - focusFovTangents.bottom) / verticalFov) *
            (referenceView.viewport.height : ℚ))) }
       projection := host.getProjectionMatrix focusFovTangents },
     true)
  else (focusView, false)

/-- The deep copy of a multi-projection layer's view array
(dllmain.cpp lines 256-262): a four-element `std::array` initialized from
`views[0]`, `views[1]`, `views[2 % viewCount]`, `views[3 % viewCount]`.
`none` models undefined behaviour: modulo by zero when `viewCount = 0`,
or reading past the end of the caller's `viewCount`-element view array
(so for `viewCount = 1` the read of `views[1]` is out of bounds). -/
def copyViews (views : List MultiProjView) (viewCount : ℤ) : Option (List MultiProjView) :=
  if viewCount = 0 then none
  else
    match views[(0 : ℕ)]?, views[(1 : ℕ)]?,
        views[(Int.tmod 2 viewCount).toNat]?, views[(Int.tmod 3 viewCount).toNat]? with
    | some v0, some v1, some v2, some v3 => some [v0, v1, v2, v3]
    | _, _, _, _ => none

/-- One iteration of the focus-view patch loop (dllmain.cpp lines
268-323) on the copied view array: reads `views[k]` and `views[k % 2]`
(out of bounds, hence `none`, when `k` exceeds the four-element copy),
stores the possibly-patched view back at index `k`, and accumulates the
foveated flag. -/
def patchViewStep (host : Host) (session : Session)
    (st : List MultiProjView × Bool) (k : ℕ) : Option (List MultiProjView × Bool) :=
  match st.1[k]?, st.1[k % 2]? with
  | some focusView, some referenceView =>
    let pv := patchFocusView host session (k : ℤ) focusView referenceView
    some (st.1.set k pv.1, st.2 || pv.2)
  | _, _ => none

/-- The whole per-layer patch (dllmain.cpp lines 255-323): deep copy of
the views, then the loop `for k = 2; k < viewCount` patching each focus
view in place, then the layer copy with its views pointer replaced and
`varjo_LayerFlag_Foveated` OR-ed into the flags if any sentinel view was
patched (USE_FOVEATED_TANGENTS = 1).  `none` models an undefined
out-of-bounds access. -/
def patchLayer (host : Host) (session : Session) (proj : LayerMultiProj) :
    Option LayerMultiProj :=
  match copyViews proj.views proj.viewCount with
  | none => none
  | some vs =>
    match (List.range' 2 (proj.viewCount - 2).toNat).foldlM
        (patchViewStep host session) (vs, false) with
    | none => none
    | some st =>
      some { proj with
        views := st.1
        flags := if st.2 then proj.flags ||| varjo_LayerFlag_Foveated else proj.flags }

/-- `hooked_EndFrameWithLayers` (dllmain.cpp lines 207-331) up to the
forwarding call: the forwarded submission keeps the original layer count
(`newSubmitInfo = *submitInfo`), while the forwarded layer-pointer list
is `newLayersPtr`, which receives one pointer per multi-projection layer
(patched deep copy) and nothing for layers of any other type.  The
result is the pair (forwarded layerCount, forwarded layer list);
`none` models an undefined out-of-bounds access while patching. -/
def hooked_EndFrameWithLayers (host : Host) (session : Session)
    (layers : List Layer) : Option (ℤ × List Layer) :=
  (layers.foldlM
      (fun acc l =>
        match l with
        | Layer.multiProj proj =>
          (patchLayer host session proj).map (fun p => acc ++ [Layer.multiProj p])
        | Layer.other _ => some acc)
      []).map (fun newLayersPtr => ((layers.length : ℤ), newLayersPtr))

/-- Spec-modelled (amended wording of the negotiation formula): the
negotiated stereo size per axis is AlignUp applied to the C truncation
(not the rounding) of base times the ratio of full to focus tangent
extents. -/
def NegotiateTextureSize_amended (base : ℤ × ℤ) (full focus : FovTangents) : ℤ × ℤ :=
  (AlignTo2i (truncQ ((base.1 : ℚ) * (absQ (full.right - full.left) / absQ (focus.right - focus.left)))),
   AlignTo2i (truncQ ((base.2 : ℚ) * (absQ (full.top - full.bottom) / absQ (focus.top - focus.bottom)))))

/-- Spec-modelled (amended wording of the viewport formula): the patched
sentinel focus viewport, with the claim's `round` replaced by C
truncation toward zero, and the horizontal and vertical offsets added to
the focus view's own submitted x and y rather than to the reference x
and y. -/
def patchedViewport_amended (refTangents : AlignedView) (focusFov : FovTangents)
    (reference focus : Viewport) : Viewport :=
  let horizontalFov := refTangents.projectionRight + refTangents.projectionLeft
  let verticalFov := refTangents.projectionTop + refTangents.projectionBottom
  { swapChain := reference.swapChain
    arrayIndex := reference.arrayIndex
    x := focus.x + truncQ ((focusFov.left + refTangents.projectionLeft) / horizontalFov *
      (reference.width : ℚ))
    y := focus.y + truncQ ((refTangents.projectionTop - focusFov.top) / verticalFov *
      (reference.height : ℚ))
    width := AlignTo2i (truncQ (absQ (focusFov.right - focusFov.left) / horizontalFov *
      (reference.width : ℚ)))
    height := AlignTo2i (truncQ (absQ (focusFov.top - focusFov.bottom) / verticalFov *
      (reference.height : ℚ))) }

/-- A bland host used for concrete witnesses. -/
def trivialHost : Host :=
  { getTextureSize := fun _ type viewIndex => (100 + type + viewIndex, 200 + type + viewIndex)
    getAlignedView := fun _ => ⟨1, 1, 1, 1⟩
    getFovTangents := fun _ _ => ⟨-1, 1, 1, -1⟩
    getFoveatedFovTangents := fun _ _ _ => ⟨-1, 1, 1, -1⟩
    getRenderingGaze := fun _ => (true, neutralGaze)
    getProjectionMatrix := fun t => ⟨[t.left, t.right, t.top, t.bottom]⟩ }

/-- A sample submitted view. -/
def sampleView : MultiProjView := ⟨⟨7, 0, 0, 0, 100, 100⟩, ⟨[1]⟩⟩

/-- Host for the C4 counterexample: base resolution 23 x 23, full
tangent extent 1, focus tangent extent 5, so both multipliers are 1/5
and 23 x 1/5 = 4.6. -/
def cHost4 : Host :=
  { trivialHost with
    getTextureSize := fun _ _ _ => (23, 23)
    getFoveatedFovTangents := fun _ viewIndex _ =>
      if viewIndex ≤ 1 then ⟨-1/2, 1/2, 1/2, -1/2⟩ else ⟨-5/2, 5/2, 5/2, -5/2⟩ }

/-- Host for the C8 evaluation: base resolution 100 x 100 and a
degenerate focus FOV with zero extent on both axes. -/
def dHost8 : Host :=
  { trivialHost with
    getTextureSize := fun _ _ _ => (100, 100)
    getFoveatedFovTangents := fun _ viewIndex _ =>
      if viewIndex ≤ 1 then ⟨-1, 1, 1, -1⟩ else ⟨3/10, 3/10, 3/10, 3/10⟩ }

/-- Host for the C3 counterexample: square aligned reference tangents
and a focus FOV whose left offset fraction is 1/20, so that over a
1011-pixel reference the offset 50.55 truncates to 50 but rounds
to 51. -/
def cHost3 : Host :=
  { trivialHost with
    getFoveatedFovTangents := fun _ _ _ => ⟨-9/10, 9/10, 1/2, -1/2⟩ }

/-- Reference view for the C3 counterexample (viewport 0,0,1011,1000). -/
def cRef3 : MultiProjView := ⟨⟨1, 0, 0, 0, 1011, 1000⟩, ⟨[0]⟩⟩

/-- Sentinel focus view for the C3 counterexample, submitted at x = 3. -/
def cFocus3 : MultiProjView := ⟨⟨9, 9, 3, 0, 1, 1⟩, ⟨[2]⟩⟩

/-- Host for the C5 counterexample: focus tangents -499/500 .. 1
horizontally (a strict subset of the aligned reference range -1 .. 1). -/
def cHost5 : Host :=
  { trivialHost with
    getFoveatedFovTangents := fun _ _ _ => ⟨-499/500, 1, 1/2, -1/2⟩ }

/-- Reference view for the C5 counterexample (viewport 0,0,1000,1000). -/
def cRef5 : MultiProjView := ⟨⟨1, 0, 0, 0, 1000, 1000⟩, ⟨[0]⟩⟩

/-- Sentinel focus view for the C5 counterexample, submitted at 0,0. -/
def cFocus5 : MultiProjView := ⟨⟨9, 9, 0, 0, 1, 1⟩, ⟨[2]⟩⟩

/-- Host for the C3 scenario: aligned reference tangents all 1, focus
tangents all of magnitude 1/2. -/
def scenarioHost : Host :=
  { trivialHost with
    getFoveatedFovTangents := fun _ _ _ => ⟨-1/2, 1/2, 1/2, -1/2⟩ }

/-- The C3 scenario layer: two full views with 1000 x 1000 viewports, a
sentinel focus view at slot 2 and a non-sentinel focus view at slot 3. -/
def scenarioLayer : LayerMultiProj :=
  ⟨0, 0, 4,
   [⟨⟨1, 0, 0, 0, 1000, 1000⟩, ⟨[0]⟩⟩,
    ⟨⟨2, 0, 0, 0, 1000, 1000⟩, ⟨[1]⟩⟩,
    ⟨⟨9, 9, 0, 0, 1, 1⟩, ⟨[2]⟩⟩,
    ⟨⟨10, 0, 0, 0, 2, 2⟩, ⟨[3]⟩⟩]⟩

/-- `AlignTo2i` in the in-range regime: no wrap occurs and the result is
the argument rounded up to the next even number. -/
theorem AlignTo2i_eq (t : ℤ) (h0 : 0 ≤ t) (h1 : t ≤ 2 ^ 31 - 2) :
    AlignTo2i t = 2 * ((t + 1) / 2) := by
  simp only [AlignTo2i, toUInt32, AlignTo2, toInt32]
  split <;> omega

/-- In-range bounds for `AlignTo2i`. -/
theorem AlignTo2i_bounds (t : ℤ) (h0 : 0 ≤ t) (h1 : t ≤ 2 ^ 31 - 2) :
    t ≤ AlignTo2i t ∧ AlignTo2i t ≤ t + 1 ∧ 2 ∣ AlignTo2i t := by
  rw [AlignTo2i_eq t h0 h1]; omega

/-- `truncQ` on a non-negative value is the floor. -/
theorem truncQ_of_nonneg {q : ℚ} (h : 0 ≤ q) : truncQ q = ⌊q⌋ := if_pos h

/-- `truncQ` of an integer is that integer. -/
theorem truncQ_intCast (n : ℤ) : truncQ (n : ℚ) = n := by
  unfold truncQ
  split
  · exact Int.floor_intCast n
  · exact Int.ceil_intCast n

/-- `absQ` agrees with the absolute value. -/
theorem absQ_eq_abs (q : ℚ) : absQ q = |q| := by
  rcases le_or_lt 0 q with h | h
  · rw [absQ, if_pos h, abs_of_nonneg h]
  · rw [absQ, if_neg (not_le.mpr h), abs_of_neg h]

/-- `absQ` of a nonzero value is nonzero. -/
theorem absQ_ne_zero {q : ℚ} (h : q ≠ 0) : absQ q ≠ 0 := by
  rw [absQ_eq_abs]; exact abs_ne_zero.mpr h

/-- C1: a frame submission containing a single layer that is not of
multi-projection type is forwarded with the original layer count (1) but
an empty layer-pointer list: the non-multi-projection layer is dropped
from `newLayersPtr` (dllmain.cpp lines 223-326 push pointers only for
`varjo_LayerMultiProjType`), so the forwarded count does not match the
forwarded list, contradicting the claim that every original layer
appears in the forwarded list. -/
theorem C1_dropped_layer_eval :
    hooked_EndFrameWithLayers trivialHost 0 [Layer.other 5] = some (1, []) ∧
    (1 : ℤ) ≠ (([] : List Layer).length : ℤ) :=
  ⟨rfl, by decide⟩

/-- C2: for a multi-projection layer with viewCount = 1, the deep copy
at dllmain.cpp lines 257-262 reads `views[1]` past the end of the
caller's one-element view array (modelled as `none`), so the patcher
performs an out-of-bounds read instead of forwarding the layer
unmodified. -/
theorem C2_oob_viewCount_one_eval :
    copyViews [sampleView] 1 = none ∧
    hooked_EndFrameWithLayers trivialHost 0
      [Layer.multiProj ⟨0, 0, 1, [sampleView]⟩] = none :=
  ⟨rfl, rfl⟩

/-- C4 (amended): for a stereo texture-size query the negotiated size is
AlignUp of the C truncation (not the rounding) of the host's base
resolution at logical index 2 + viewIndex scaled by the tangent-extent
ratios; and when the resolved full and focus tangents coincide and have
nonzero extents, the result is exactly the aligned base resolution. -/
theorem C4_amended (host : Host) (session : Session) (viewIndex : ℤ)
    (_hvi : viewIndex = 0 ∨ viewIndex = 1) :
    hooked_GetTextureSize host session varjo_TextureSize_Type_Stereo viewIndex =
      NegotiateTextureSize_amended
        (host.getTextureSize session varjo_TextureSize_Type_DynamicFoveation (2 + viewIndex))
        (GetFovTangents host session viewIndex)
        (GetFovTangents host session (2 + viewIndex)) ∧
    (GetFovTangents host session viewIndex = GetFovTangents host session (2 + viewIndex) →
     (GetFovTangents host session viewIndex).right ≠ (GetFovTangents host session viewIndex).left →
     (GetFovTangents host session viewIndex).top ≠ (GetFovTangents host session viewIndex).bottom →
     hooked_GetTextureSize host session varjo_TextureSize_Type_Stereo viewIndex =
       (AlignTo2i (host.getTextureSize session varjo_TextureSize_Type_DynamicFoveation (2 + viewIndex)).1,
        AlignTo2i (host.getTextureSize session varjo_TextureSize_Type_DynamicFoveation (2 + viewIndex)).2)) := by
  constructor
  · rfl
  · intro hid hx hy
    have h1 : absQ ((GetFovTangents host session viewIndex).right -
          (GetFovTangents host session viewIndex).left) /
        absQ ((GetFovTangents host session (2 + viewIndex)).right -
          (GetFovTangents host session (2 + viewIndex)).left) = 1 := by
      rw [← hid]
      exact div_self (absQ_ne_zero (sub_ne_zero.mpr hx))
    have h2 : absQ ((GetFovTangents host session viewIndex).top -
          (GetFovTangents host session viewIndex).bottom) /
        absQ ((GetFovTangents host session (2 + viewIndex)).top -
          (GetFovTangents host session (2 + viewIndex)).bottom) = 1 := by
      rw [← hid]
      exact div_self (absQ_ne_zero (sub_ne_zero.mpr hy))
    show NegotiateTextureSize_amended _ _ _ = _
    rw [NegotiateTextureSize_amended, h1, h2, mul_one, mul_one,
      truncQ_intCast, truncQ_intCast]

/-- Witness for C4: concrete host with identical full and focus tangents
of nonzero extent; the negotiated size is the aligned base resolution. -/
theorem C4_amended_witness :
    hooked_GetTextureSize trivialHost 0 varjo_TextureSize_Type_Stereo 0 =
      NegotiateTextureSize_amended
        (trivialHost.getTextureSize 0 varjo_TextureSize_Type_DynamicFoveation 2)
        (GetFovTangents trivialHost 0 0) (GetFovTangents trivialHost 0 2) ∧
    hooked_GetTextureSize trivialHost 0 varjo_TextureSize_Type_Stereo 0 =
      (AlignTo2i (trivialHost.getTextureSize 0 varjo_TextureSize_Type_DynamicFoveation 2).1,
       AlignTo2i (trivialHost.getTextureSize 0 varjo_TextureSize_Type_DynamicFoveation 2).2) := by
  obtain ⟨h1, h2⟩ := C4_amended trivialHost 0 0 (Or.inl rfl)
  refine ⟨h1, h2 rfl ?_ ?_⟩ <;>
    norm_num [GetFovTangents, GetRenderingGaze, trivialHost]

/-- C4 counterexample: base 23, multiplier 1/5 (full extent 1, focus
extent 5).  23 x 1/5 = 4.6: the code truncates to 4 and aligns to 4,
while the claimed formula rounds to 5 and aligns to 6. -/
theorem C4_counterexample :
    (hooked_GetTextureSize cHost4 0 varjo_TextureSize_Type_Stereo 0).1 = 4 ∧
    AlignTo2i (round ((23 : ℚ) * (absQ ((1 : ℚ)/2 - (-1/2)) / absQ ((5 : ℚ)/2 - (-5/2))))) = 6 ∧
    (4 : ℤ) ≠ 6 := by
  refine ⟨?_, ?_, by decide⟩
  · norm_num [hooked_GetTextureSize, GetFovTangents, GetRenderingGaze, cHost4, trivialHost,
      varjo_TextureSize_Type_Stereo, varjo_TextureSize_Type_DynamicFoveation,
      absQ, truncQ, AlignTo2i, toUInt32, AlignTo2, toInt32]
    omega
  · have h : ((23 : ℚ) * (absQ ((1 : ℚ)/2 - (-1/2)) / absQ ((5 : ℚ)/2 - (-5/2)))) = 23/5 := by
      norm_num [absQ]
    rw [h, round_eq]
    have h2 : ⌊(23 : ℚ)/5 + 1/2⌋ = (5 : ℤ) := by norm_num
    rw [h2, AlignTo2i_eq 5 (by norm_num) (by norm_num)]
    decide

/-- C7 (amended): `AlignTo<2>` is idempotent for every `uint32_t` input,
and for every n that does not overflow (n + 1 < 2^32) the result is
even, at least n, and exceeds n by less than 2.  (At n = 2^32 - 1 the
increment wraps and the result is 0.) -/
theorem C7_amended :
    (∀ n : ℕ, AlignTo2 (AlignTo2 n) = AlignTo2 n) ∧
    (∀ n : ℕ, n ≤ 4294967294 → 2 ∣ AlignTo2 n ∧ n ≤ AlignTo2 n ∧ AlignTo2 n - n < 2) := by
  constructor
  · intro n; unfold AlignTo2; omega
  · intro n h; unfold AlignTo2; omega

/-- Witness for C7 at n = 10. -/
theorem C7_amended_witness :
    2 ∣ AlignTo2 10 ∧ 10 ≤ AlignTo2 10 ∧ AlignTo2 10 - 10 < 2 :=
  C7_amended.2 10 (by norm_num)

/-- C7 counterexample: at n = 2^32 - 1 the `uint32_t` increment inside
`AlignTo<2>` wraps, the result is 0, and the claimed bound
`AlignUp(n,2) >= n` fails. -/
theorem C7_counterexample :
    AlignTo2 4294967295 = 0 ∧ ¬(4294967295 ≤ AlignTo2 4294967295) := by
  constructor
  · rfl
  · rw [show AlignTo2 4294967295 = 0 from rfl]; omega

/-- C8: with a degenerate focus FOV (zero tangent extent on both axes)
the stereo negotiation divides by zero with no clamp: in this exact
model the dimensions collapse to 0 x 0 (in IEEE arithmetic the
multiplier is non-finite and the integer cast is undefined), instead of
falling back to the host's base resolution 100 x 100 as the claim
states. -/
theorem C8_no_clamp_eval :
    hooked_GetTextureSize dHost8 0 varjo_TextureSize_Type_Stereo 0 = (0, 0) ∧
    dHost8.getTextureSize 0 varjo_TextureSize_Type_DynamicFoveation 2 = (100, 100) ∧
    ((0, 0) : ℤ × ℤ) ≠ (AlignTo2i 100, AlignTo2i 100) := by
  refine ⟨?_, rfl, ?_⟩
  · norm_num [hooked_GetTextureSize, GetFovTangents, GetRenderingGaze, dHost8, trivialHost,
      varjo_TextureSize_Type_Stereo, varjo_TextureSize_Type_DynamicFoveation,
      absQ, truncQ, AlignTo2i, toUInt32, AlignTo2, toInt32, Prod.ext_iff]
  · rw [AlignTo2i_eq 100 (by norm_num) (by norm_num)]
    decide

/-- C9: with gaze tracking disabled (USE_FOVEATED_GAZE = 0),
`GetRenderingGaze` succeeds for every session and writes the fixed
neutral gaze: forward (0,0,1) for the left eye, right eye and combined
gaze, both per-eye statuses 3 (fully tracked), stability 1; the result
is identical across sessions and calls. -/
theorem C9_neutral_gaze :
    ∀ session : Session,
      GetRenderingGaze session = (true, neutralGaze) ∧
      neutralGaze.leftEye.forward0 = 0 ∧ neutralGaze.leftEye.forward1 = 0 ∧
      neutralGaze.leftEye.forward2 = 1 ∧
      neutralGaze.rightEye.forward0 = 0 ∧ neutralGaze.rightEye.forward1 = 0 ∧
      neutralGaze.rightEye.forward2 = 1 ∧
      neutralGaze.gaze.forward0 = 0 ∧ neutralGaze.gaze.forward1 = 0 ∧
      neutralGaze.gaze.forward2 = 1 ∧
      neutralGaze.leftStatus = 3 ∧ neutralGaze.rightStatus = 3 ∧
      neutralGaze.stability = 1 ∧
      ∀ session2 : Session, GetRenderingGaze session = GetRenderingGaze session2 :=
  fun _ => ⟨rfl, rfl, rfl, rfl, rfl, rfl, rfl, rfl, rfl, rfl, rfl, rfl, rfl, fun _ => rfl⟩

/-- C10: a texture-size query whose size type is not the stereo type is
forwarded verbatim to the host for the same session, type and view
index, with no rescaling or alignment. -/
theorem C10_passthrough (host : Host) (session : Session) (type viewIndex : ℤ)
    (h : type ≠ varjo_TextureSize_Type_Stereo) :
    hooked_GetTextureSize host session type viewIndex =
      host.getTextureSize session type viewIndex := by
  simp [hooked_GetTextureSize, h]

/-- Witness for C10 at the quad size type. -/
theorem C10_passthrough_witness :
    hooked_GetTextureSize trivialHost 0 varjo_TextureSize_Type_Quad 1 =
      trivialHost.getTextureSize 0 varjo_TextureSize_Type_Quad 1 :=
  C10_passthrough trivialHost 0 varjo_TextureSize_Type_Quad 1 (by decide)

/-- A non-sentinel view is returned untouched by the patch body. -/
theorem patchFocusView_nonsentinel (host : Host) (session : Session) (k : ℤ)
    (focusView referenceView : MultiProjView)
    (h : ¬(focusView.viewport.width = 1 ∧ focusView.viewport.height = 1)) :
    patchFocusView host session k focusView referenceView = (focusView, false) := by
  rw [patchFocusView, if_neg h]

/-- The focus-view patch loop succeeds and leaves a non-sentinel slot
untouched, as long as every visited index is in bounds. -/
theorem patchLoop_preserve (host : Host) (session : Session) (k : ℕ)
    (v0 : MultiProjView)
    (hv0 : ¬(v0.viewport.width = 1 ∧ v0.viewport.height = 1)) :
    ∀ (ks : List ℕ) (st : List MultiProjView × Bool)
      (_ : ∀ k2 ∈ ks, k2 % 2 < st.1.length ∧ k2 < st.1.length)
      (_ : st.1[k]? = some v0),
      ∃ st2, ks.foldlM (patchViewStep host session) st = some st2 ∧
        st2.1[k]? = some v0 ∧ st2.1.length = st.1.length := by
  intro ks
  induction ks with
  | nil => exact fun st _ hk => ⟨st, rfl, hk, rfl⟩
  | cons a as ih =>
    intro st hbound hk
    obtain ⟨hb1, hb2⟩ := hbound a (List.mem_cons_self a as)
    have hfv : st.1[a]? = some (st.1[a]) := List.getElem?_eq_getElem hb2
    have hrv : st.1[a % 2]? = some (st.1[a % 2]) := List.getElem?_eq_getElem hb1
    have hstep : patchViewStep host session st a =
        some (st.1.set a (patchFocusView host session (a : ℤ) (st.1[a]) (st.1[a % 2])).1,
          st.2 || (patchFocusView host session (a : ℤ) (st.1[a]) (st.1[a % 2])).2) := by
      rw [patchViewStep, hfv, hrv]
    have hlen2 : (st.1.set a (patchFocusView host session (a : ℤ) (st.1[a]) (st.1[a % 2])).1).length
        = st.1.length := List.length_set ..
    have hpres : (st.1.set a (patchFocusView host session (a : ℤ) (st.1[a]) (st.1[a % 2])).1)[k]?
        = some v0 := by
      rcases eq_or_ne a k with rfl | hne
      · have hv : st.1[a] = v0 := Option.some_injective _ (hfv.symm.trans hk)
        rw [hv, patchFocusView_nonsentinel host session _ v0 _ hv0]
        exact List.getElem?_set_eq_of_lt _ (by omega)
      · rw [List.getElem?_set_ne hne]
        exact hk
    obtain ⟨st2, hfold, hget, hlen⟩ :=
      ih (st.1.set a (patchFocusView host session (a : ℤ) (st.1[a]) (st.1[a % 2])).1,
          st.2 || (patchFocusView host session (a : ℤ) (st.1[a]) (st.1[a % 2])).2)
        (fun k2 hm => by
          obtain ⟨c1, c2⟩ := hbound k2 (List.mem_cons_of_mem a hm)
          simpa [hlen2] using And.intro c1 c2)
        hpres
    refine ⟨st2, ?_, hget, by simpa [hlen2] using hlen⟩
    simpa [List.foldlM, hstep] using hfold

/-- C6: for a well-formed multi-projection layer (view array of length
viewCount, at most 4 views) and a focus view index k >= 2 whose
submitted viewport is not exactly 1 x 1, the patched layer keeps that
view byte-for-byte identical to the submitted one (viewport, swapchain,
array index and projection all unmodified). -/
theorem C6_nonsentinel_unmodified (host : Host) (session : Session)
    (proj : LayerMultiProj) (k : ℕ) (v0 : MultiProjView)
    (hwf : (proj.views.length : ℤ) = proj.viewCount)
    (hvc4 : proj.viewCount ≤ 4)
    (hk2 : 2 ≤ k) (hklt : (k : ℤ) < proj.viewCount)
    (hv0get : proj.views[k]? = some v0)
    (hns : ¬(v0.viewport.width = 1 ∧ v0.viewport.height = 1)) :
    ∃ p2, patchLayer host session proj = some p2 ∧ p2.views[k]? = some v0 := by
  have hkn : k < proj.views.length := by omega
  have hn34 : proj.views.length = 3 ∨ proj.views.length = 4 := by omega
  obtain ⟨a0, ha0⟩ : ∃ w, proj.views[(0 : ℕ)]? = some w :=
    ⟨_, List.getElem?_eq_getElem (by omega)⟩
  obtain ⟨a1, ha1⟩ : ∃ w, proj.views[(1 : ℕ)]? = some w :=
    ⟨_, List.getElem?_eq_getElem (by omega)⟩
  obtain ⟨a2, ha2⟩ : ∃ w, proj.views[(2 : ℕ)]? = some w :=
    ⟨_, List.getElem?_eq_getElem (by omega)⟩
  rcases hn34 with h3 | h4
  · -- viewCount = 3, so k = 2; the copy is views 0,1,2,0
    have hvc : proj.viewCount = 3 := by omega
    have hk : k = 2 := by omega
    subst hk
    have hv0 : a2 = v0 := Option.some_injective _ (ha2.symm.trans hv0get)
    subst hv0
    have hcopy : copyViews proj.views 3 = some [a0, a1, a2, a0] := by
      rw [copyViews, if_neg (by norm_num),
        show (Int.tmod 2 3).toNat = 2 by decide, show (Int.tmod 3 3).toNat = 0 by decide,
        ha0, ha1, ha2]
    obtain ⟨st2, hfold, hget, _⟩ := patchLoop_preserve host session 2 a2 hns [2]
      ([a0, a1, a2, a0], false)
      (by intro k2 hm; simp at hm; subst hm; constructor <;> simp)
      rfl
    have hpatch : patchLayer host session proj =
        some ⟨if st2.2 then proj.flags ||| varjo_LayerFlag_Foveated else proj.flags,
          proj.space, proj.viewCount, st2.1⟩ := by
      simp only [patchLayer, hcopy, hvc, hfold,
        show ((3 : ℤ) - 2).toNat = 1 from rfl, show List.range' 2 1 = [2] from rfl]
    exact ⟨_, hpatch, hget⟩
  · -- viewCount = 4, so k = 2 or 3; the copy is views 0,1,2,3
    have hvc : proj.viewCount = 4 := by omega
    obtain ⟨a3, ha3⟩ : ∃ w, proj.views[(3 : ℕ)]? = some w :=
      ⟨_, List.getElem?_eq_getElem (by omega)⟩
    have hcopy : copyViews proj.views 4 = some [a0, a1, a2, a3] := by
      rw [copyViews, if_neg (by norm_num),
        show (Int.tmod 2 4).toNat = 2 by decide, show (Int.tmod 3 4).toNat = 3 by decide,
        ha0, ha1, ha2, ha3]
    have hk23 : k = 2 ∨ k = 3 := by omega
    have hcget : ([a0, a1, a2, a3] : List MultiProjView)[k]? = some v0 := by
      rcases hk23 with rfl | rfl
      · simpa using ha2.symm.trans hv0get
      · simpa using ha3.symm.trans hv0get
    obtain ⟨st2, hfold, hget, _⟩ := patchLoop_preserve host session k v0 hns [2, 3]
      ([a0, a1, a2, a3], false)
      (by intro k2 hm; simp at hm; rcases hm with rfl | rfl <;> constructor <;> simp)
      hcget
    have hpatch : patchLayer host session proj =
        some ⟨if st2.2 then proj.flags ||| varjo_LayerFlag_Foveated else proj.flags,
          proj.space, proj.viewCount, st2.1⟩ := by
      simp only [patchLayer, hcopy, hvc, hfold,
        show ((4 : ℤ) - 2).toNat = 2 from rfl, show List.range' 2 2 = [2, 3] from rfl]
    exact ⟨_, hpatch, hget⟩

/-- Witness for C6: a three-view layer whose focus view has a 2 x 2
viewport is forwarded with that view unchanged. -/
theorem C6_nonsentinel_unmodified_witness :
    ∃ p2, patchLayer trivialHost 0
        ⟨0, 0, 3, [⟨⟨1, 0, 0, 0, 1000, 1000⟩, ⟨[0]⟩⟩, ⟨⟨2, 0, 0, 0, 1000, 1000⟩, ⟨[1]⟩⟩,
          ⟨⟨10, 0, 5, 6, 2, 2⟩, ⟨[3]⟩⟩]⟩ = some p2 ∧
      p2.views[(2 : ℕ)]? = some ⟨⟨10, 0, 5, 6, 2, 2⟩, ⟨[3]⟩⟩ :=
  C6_nonsentinel_unmodified trivialHost 0
    ⟨0, 0, 3, [⟨⟨1, 0, 0, 0, 1000, 1000⟩, ⟨[0]⟩⟩, ⟨⟨2, 0, 0, 0, 1000, 1000⟩, ⟨[1]⟩⟩,
      ⟨⟨10, 0, 5, 6, 2, 2⟩, ⟨[3]⟩⟩]⟩ 2 ⟨⟨10, 0, 5, 6, 2, 2⟩, ⟨[3]⟩⟩
    rfl (by norm_num) (by norm_num) (by norm_num) rfl (by norm_num)

/-- One-dimensional bound for the carved viewport: with a non-negative
offset fraction and extent fraction summing to at most 1, the truncated
offset is non-negative and offset plus aligned extent overshoots the
reference extent by at most 1. -/
theorem carve1D (lo wf : ℚ) (W : ℤ)
    (hlo : 0 ≤ lo) (hwf : 0 ≤ wf) (hsum : lo + wf ≤ 1)
    (hW0 : 0 ≤ W) (hW1 : W ≤ 2 ^ 31 - 2) :
    0 ≤ truncQ (lo * (W : ℚ)) ∧
    truncQ (lo * (W : ℚ)) + AlignTo2i (truncQ (wf * (W : ℚ))) ≤ W + 1 := by
  have hWQ : (0 : ℚ) ≤ (W : ℚ) := by exact_mod_cast hW0
  have hx : (0 : ℚ) ≤ lo * (W : ℚ) := mul_nonneg hlo hWQ
  have hw : (0 : ℚ) ≤ wf * (W : ℚ) := mul_nonneg hwf hWQ
  rw [truncQ_of_nonneg hx, truncQ_of_nonneg hw]
  have hfl0 : 0 ≤ ⌊lo * (W : ℚ)⌋ := Int.floor_nonneg.mpr hx
  have hfw0 : 0 ≤ ⌊wf * (W : ℚ)⌋ := Int.floor_nonneg.mpr hw
  have hsumQ : lo * (W : ℚ) + wf * (W : ℚ) ≤ (W : ℚ) := by
    calc lo * (W : ℚ) + wf * (W : ℚ) = (lo + wf) * (W : ℚ) := by ring
      _ ≤ 1 * (W : ℚ) := mul_le_mul_of_nonneg_right hsum hWQ
      _ = (W : ℚ) := one_mul _
  have hfs : ⌊lo * (W : ℚ)⌋ + ⌊wf * (W : ℚ)⌋ ≤ W := by
    have hq : ((⌊lo * (W : ℚ)⌋ + ⌊wf * (W : ℚ)⌋ : ℤ) : ℚ) ≤ ((W : ℤ) : ℚ) := by
      push_cast
      have := add_le_add (Int.floor_le (lo * (W : ℚ))) (Int.floor_le (wf * (W : ℚ)))
      linarith
    exact_mod_cast hq
  obtain ⟨_, hA2, _⟩ := AlignTo2i_bounds ⌊wf * (W : ℚ)⌋ hfw0 (by omega)
  exact ⟨hfl0, by omega⟩

/-- C5 (amended): for a sentinel focus view submitted at x = y = 0 whose
focus FOV tangent range is contained in the reference view's aligned
tangent range (with non-degenerate reference FOV, a reference viewport
at non-negative origin and in-range extents), the patched rectangle
starts at a non-negative coordinate and ends at most ONE pixel past the
reference viewport's far edge on each axis; the exact containment
claimed (no overshoot at all) fails because the width and height are
aligned up to an even pixel count. -/
theorem C5_amended (host : Host) (session : Session) (k : ℤ)
    (focusView referenceView : MultiProjView)
    (pl pr pt pb fl fr ftop fbot : ℚ)
    (hav : host.getAlignedView referenceView.projection = ⟨pl, pr, pt, pb⟩)
    (hft : GetFovTangents host session k = ⟨fl, fr, ftop, fbot⟩)
    (hsent : focusView.viewport.width = 1 ∧ focusView.viewport.height = 1)
    (hfx : focusView.viewport.x = 0) (hfy : focusView.viewport.y = 0)
    (hrx : 0 ≤ referenceView.viewport.x) (hry : 0 ≤ referenceView.viewport.y)
    (hrw0 : 0 ≤ referenceView.viewport.width)
    (hrw1 : referenceView.viewport.width ≤ 2 ^ 31 - 2)
    (hrh0 : 0 ≤ referenceView.viewport.height)
    (hrh1 : referenceView.viewport.height ≤ 2 ^ 31 - 2)
    (hhf : 0 < pr + pl) (hvf : 0 < pt + pb)
    (hs1 : -pl ≤ fl) (hs2 : fl ≤ fr) (hs3 : fr ≤ pr)
    (hs4 : -pb ≤ fbot) (hs5 : fbot ≤ ftop) (hs6 : ftop ≤ pt) :
    0 ≤ (patchFocusView host session k focusView referenceView).1.viewport.x ∧
    (patchFocusView host session k focusView referenceView).1.viewport.x +
      (patchFocusView host session k focusView referenceView).1.viewport.width ≤
      referenceView.viewport.x + referenceView.viewport.width + 1 ∧
    0 ≤ (patchFocusView host session k focusView referenceView).1.viewport.y ∧
    (patchFocusView host session k focusView referenceView).1.viewport.y +
      (patchFocusView host session k focusView referenceView).1.viewport.height ≤
      referenceView.viewport.y + referenceView.viewport.height + 1 := by
  have hpv : (patchFocusView host session k focusView referenceView).1.viewport =
      { swapChain := referenceView.viewport.swapChain
        arrayIndex := referenceView.viewport.arrayIndex
        x := focusView.viewport.x +
          truncQ ((fl + pl) / (pr + pl) * (referenceView.viewport.width : ℚ))
        y := focusView.viewport.y +
          truncQ ((pt - ftop) / (pt + pb) * (referenceView.viewport.height : ℚ))
        width := AlignTo2i (truncQ (absQ (fr - fl) / (pr + pl) *
          (referenceView.viewport.width : ℚ)))
        height := AlignTo2i (truncQ (absQ (ftop - fbot) / (pt + pb) *
          (referenceView.viewport.height : ℚ))) } := by
    rw [patchFocusView, if_pos hsent, hav, hft]
  have habsw : absQ (fr - fl) = fr - fl := by
    rw [absQ_eq_abs]; exact abs_of_nonneg (by linarith)
  have habsh : absQ (ftop - fbot) = ftop - fbot := by
    rw [absQ_eq_abs]; exact abs_of_nonneg (by linarith)
  rw [hpv]
  dsimp only
  rw [hfx, hfy, habsw, habsh]
  have Hh := carve1D ((fl + pl) / (pr + pl)) ((fr - fl) / (pr + pl))
    referenceView.viewport.width
    (div_nonneg (by linarith) hhf.le) (div_nonneg (by linarith) hhf.le)
    (by rw [div_add_div_same, div_le_one hhf]; linarith) hrw0 hrw1
  have Hv := carve1D ((pt - ftop) / (pt + pb)) ((ftop - fbot) / (pt + pb))
    referenceView.viewport.height
    (div_nonneg (by linarith) hvf.le) (div_nonneg (by linarith) hvf.le)
    (by rw [div_add_div_same, div_le_one hvf]; linarith) hrh0 hrh1
  obtain ⟨Hh1, Hh2⟩ := Hh
  obtain ⟨Hv1, Hv2⟩ := Hv
  refine ⟨by omega, by omega, by omega, by omega⟩

/-- Witness for C5: the scenario geometry (aligned reference tangents
all 1, focus tangents of magnitude 1/2, reference viewport
0,0,1000,1000, sentinel focus at 0,0). -/
theorem C5_amended_witness :
    0 ≤ (patchFocusView scenarioHost 0 2 cFocus5 cRef5).1.viewport.x ∧
    (patchFocusView scenarioHost 0 2 cFocus5 cRef5).1.viewport.x +
      (patchFocusView scenarioHost 0 2 cFocus5 cRef5).1.viewport.width ≤
      cRef5.viewport.x + cRef5.viewport.width + 1 ∧
    0 ≤ (patchFocusView scenarioHost 0 2 cFocus5 cRef5).1.viewport.y ∧
    (patchFocusView scenarioHost 0 2 cFocus5 cRef5).1.viewport.y +
      (patchFocusView scenarioHost 0 2 cFocus5 cRef5).1.viewport.height ≤
      cRef5.viewport.y + cRef5.viewport.height + 1 :=
  C5_amended scenarioHost 0 2 cFocus5 cRef5 1 1 1 1 (-1/2) (1/2) (1/2) (-1/2)
    rfl rfl ⟨rfl, rfl⟩ rfl rfl (by norm_num [cRef5]) (by norm_num [cRef5])
    (by norm_num [cRef5]) (by norm_num [cRef5]) (by norm_num [cRef5]) (by norm_num [cRef5])
    (by norm_num) (by norm_num) (by norm_num) (by norm_num) (by norm_num) (by norm_num)
    (by norm_num) (by norm_num)

/-- C5 counterexample: focus tangents -499/500 .. 1 inside reference
range -1 .. 1 over a 1000-pixel reference viewport at the origin: the
truncated offset is 1 and the aligned width is 1000, so the patched
rectangle ends at 1001, one pixel past the reference edge 1000 — the
claimed containment `newX + newWidth <= refX + refWidth` is violated. -/
theorem C5_counterexample :
    ((-1 : ℚ) ≤ -499/500 ∧ (-499/500 : ℚ) ≤ 1 ∧ (1 : ℚ) ≤ 1 ∧
     (-1 : ℚ) ≤ -1/2 ∧ (-1/2 : ℚ) ≤ 1/2 ∧ (1/2 : ℚ) ≤ 1) ∧
    (patchFocusView cHost5 0 2 cFocus5 cRef5).1.viewport.x +
      (patchFocusView cHost5 0 2 cFocus5 cRef5).1.viewport.width = 1001 ∧
    ¬((patchFocusView cHost5 0 2 cFocus5 cRef5).1.viewport.x +
        (patchFocusView cHost5 0 2 cFocus5 cRef5).1.viewport.width ≤
      cRef5.viewport.x + cRef5.viewport.width) := by
  have heval : (patchFocusView cHost5 0 2 cFocus5 cRef5).1.viewport.x +
      (patchFocusView cHost5 0 2 cFocus5 cRef5).1.viewport.width = 1001 := by
    norm_num [patchFocusView, cHost5, cFocus5, cRef5, trivialHost, GetFovTangents,
      GetRenderingGaze, truncQ, absQ, AlignTo2i, toUInt32, AlignTo2, toInt32,
      show (999 : ℤ).toNat = 999 from rfl, show (1 : ℤ).toNat = 1 from rfl]
  have hrefs : cRef5.viewport.x + cRef5.viewport.width = 1000 := rfl
  exact ⟨by norm_num, heval, by omega⟩

/-- C3 (amended): for every sentinel focus view the patched viewport
equals the amended spec formula (C truncation instead of rounding,
offsets added to the focus view's own submitted x and y); and in the
concrete scenario (full tangents 1,1,1,1, focus tangents of magnitude
1/2, reference viewport 0,0,1000,1000, sentinel focus submitted at 0,0)
the patched focus viewport is x 250, y 250, width 500, height 500 on the
reference view's swapchain. -/
theorem C3_amended (host : Host) (session : Session) (k : ℤ)
    (focusView referenceView : MultiProjView)
    (hsent : focusView.viewport.width = 1 ∧ focusView.viewport.height = 1) :
    (patchFocusView host session k focusView referenceView).1.viewport =
      patchedViewport_amended (host.getAlignedView referenceView.projection)
        (GetFovTangents host session k) referenceView.viewport focusView.viewport ∧
    patchLayer scenarioHost 0 scenarioLayer =
      some ⟨8, 0, 4,
        [⟨⟨1, 0, 0, 0, 1000, 1000⟩, ⟨[0]⟩⟩,
         ⟨⟨2, 0, 0, 0, 1000, 1000⟩, ⟨[1]⟩⟩,
         ⟨⟨1, 0, 250, 250, 500, 500⟩, ⟨[-1/2, 1/2, 1/2, -1/2]⟩⟩,
         ⟨⟨10, 0, 0, 0, 2, 2⟩, ⟨[3]⟩⟩]⟩ := by
  constructor
  · rw [patchFocusView, if_pos hsent, patchedViewport_amended]
  · norm_num [patchLayer, copyViews, scenarioLayer, scenarioHost, trivialHost,
      patchViewStep, patchFocusView, GetFovTangents, GetRenderingGaze, truncQ, absQ,
      AlignTo2i, toUInt32, AlignTo2, toInt32, List.foldlM, varjo_LayerFlag_Foveated,
      Int.tmod, show (2 : ℤ).toNat = 2 from rfl, show (3 : ℤ).toNat = 3 from rfl,
      show (250 : ℤ).toNat = 250 from rfl, show (499 : ℤ).toNat = 499 from rfl,
      show (500 : ℤ).toNat = 500 from rfl]

/-- Witness for C3 at the scenario inputs. -/
theorem C3_amended_witness :
    (patchFocusView scenarioHost 0 2 cFocus5 cRef5).1.viewport =
      patchedViewport_amended (scenarioHost.getAlignedView cRef5.projection)
        (GetFovTangents scenarioHost 0 2) cRef5.viewport cFocus5.viewport ∧
    patchLayer scenarioHost 0 scenarioLayer =
      some ⟨8, 0, 4,
        [⟨⟨1, 0, 0, 0, 1000, 1000⟩, ⟨[0]⟩⟩,
         ⟨⟨2, 0, 0, 0, 1000, 1000⟩, ⟨[1]⟩⟩,
         ⟨⟨1, 0, 250, 250, 500, 500⟩, ⟨[-1/2, 1/2, 1/2, -1/2]⟩⟩,
         ⟨⟨10, 0, 0, 0, 2, 2⟩, ⟨[3]⟩⟩]⟩ :=
  C3_amended scenarioHost 0 2 cFocus5 cRef5 ⟨rfl, rfl⟩

/-- C3 counterexample: square aligned reference tangents (1,1,1,1),
focus left tangent -9/10, reference viewport 0,0,1011,1000 and the
sentinel focus view submitted at x = 3.  The left offset fraction is
1/20, so the offset over 1011 pixels is 50.55: the code produces
x = 3 + 50 = 53 (truncation added to the submitted focus x), while the
claimed formula reference.x + round(50.55) gives 51. -/
theorem C3_counterexample :
    (patchFocusView cHost3 0 2 cFocus3 cRef3).1.viewport.x = 53 ∧
    cRef3.viewport.x + round ((((-9 : ℚ)/10 + 1) / 2) * 1011) = 51 ∧
    (53 : ℤ) ≠ 51 := by
  refine ⟨?_, ?_, by decide⟩
  · norm_num [patchFocusView, cHost3, cFocus3, cRef3, trivialHost, GetFovTangents,
      GetRenderingGaze, truncQ, absQ]
  · have h : ((((-9 : ℚ)/10 + 1) / 2) * 1011) = 1011/20 := by norm_num
    rw [h, round_eq]
    have h2 : ⌊(1011 : ℚ)/20 + 1/2⌋ = (51 : ℤ) := by norm_num
    rw [h2]
    norm_num [cRef3]

end Quadinator
